import Mathlib

/-!
# Shallow embedding of `dislash/interactions/interaction.py`

This file embeds the interaction-response lifecycle of `BaseInteraction`
(`reply`, `edit`, `delete`, `followup`, the `expired` timing property and the
lazily-cached `webhook` property) as pure Lean functions.

Modelling conventions:
* Wall-clock instants are integers counting milliseconds on the Unix scale,
  matching the millisecond resolution of snowflake creation timestamps
  (`discord.utils.snowflake_time(id) = DISCORD_EPOCH + (id >> 22)` ms).
* Python exceptions are `Except Err` results; `discord.InvalidArgument`
  raises map to the validation constructors of `Err`, the `TypeError`
  state-precondition raises of `edit`/`delete` map to the state-error
  constructors, and the `AttributeError` from calling `.send` on a `None`
  channel maps to `Err.channelIsNone`.
* Every outgoing HTTP request (the interaction callback POST, the
  PATCH/DELETE on `/webhooks/{app_id}/{token}/messages/@original`, the
  fallback `TextChannel.send` and the webhook follow-up send) is recorded in
  an ordered trace; the collaborator endpoints themselves are opaque and
  always succeed, returning a message value tagged with its origin.
* `discord.Embed` / `ActionRow` values passed by the caller are `PyObj`
  values, so the `isinstance` validation checks are observable; `to_dict`
  serialisation is the identity on the carried tag.
* Fields of the interaction that no operation reads (guild, author, version)
  are omitted; `application_id` is kept because the source stores it (and
  never uses it), and the client's bot user id is kept because the source
  keys the webhook routes by it.
* The fire-and-forget `delete_after` background task is recorded as a
  scheduled delay in the outcome, not executed.
-/

deriving instance DecidableEq for Except

namespace Dislash

/-- Interaction type codes from the source `InteractionType` class. -/
def InteractionType.Ping : Nat := 1

def InteractionType.ApplicationCommand : Nat := 2

def InteractionType.MessageComponent : Nat := 3

/-- Response type codes from the source `ResponseType` class. -/
def ResponseType.Pong : Nat := 1

def ResponseType.Acknowledge : Nat := 1

def ResponseType.ChannelMessage : Nat := 3

def ResponseType.ChannelMessageWithSource : Nat := 4

def ResponseType.AcknowledgeWithSource : Nat := 5

def ResponseType.DeferredUpdateMessage : Nat := 6

def ResponseType.UpdateMessage : Nat := 7

/-- A Python value passed in an `embed`/`embeds`/`components` argument slot:
either a `discord.Embed`, an `ActionRow`, or some other object (which the
`isinstance` validation rejects). The `Nat` tag is the object's identity and
also its `to_dict` serialisation. -/
inductive PyObj where
  | embed (tag : Nat)
  | actionRow (tag : Nat)
  | other (tag : Nat)
deriving DecidableEq

def PyObj.isEmbed : PyObj → Bool
  | .embed _ => true
  | _ => false

def PyObj.isActionRow : PyObj → Bool
  | .actionRow _ => true
  | _ => false

def PyObj.toDict : PyObj → Nat
  | .embed t => t
  | .actionRow t => t
  | .other t => t

/-- An allowed-mentions value. `merged d c` is the result of
`d.merge(c)` (the process-wide default `d` with the caller's `c` on top);
the merge itself is a `discord.AllowedMentions` collaborator, kept opaque. -/
inductive AMVal where
  | raw (tag : Nat)
  | merged (base override : AMVal)
deriving DecidableEq

/-- The caller-supplied allowed-mentions value merged with the client state's
process-wide default, exactly as both `reply` and `edit` compute it. -/
def mergeAllowedMentions (stateDefault : Option AMVal) (caller : AMVal) : AMVal :=
  match stateDefault with
  | some d => .merged d caller
  | none => caller

/-- The `data` dictionary built by `reply` (and the body built by `edit`,
which never populates `flags`/`tts`). A field is `none` when the
corresponding key is absent from the dict. -/
structure MsgData where
  content : Option String := none
  embeds : Option (List Nat) := none
  components : Option (List Nat) := none
  allowed_mentions : Option AMVal := none
  flags : Option Nat := none
  tts : Option Bool := none
deriving DecidableEq

/-- `len(data) == 0`: no key was ever added to the dict. -/
def MsgData.isEmptyDict (d : MsgData) : Bool :=
  d.content.isNone && d.embeds.isNone && d.components.isNone &&
  d.allowed_mentions.isNone && d.flags.isNone && d.tts.isNone

/-- A message value returned to the caller, tagged with the collaborator call
that produced it. -/
inductive Msg where
  | fromChannelSend (channelId : Nat) (content : Option String) (embed : Option PyObj)
  | fromEdit (channel : Option Nat) (body : MsgData)
  | fromWebhook (channel : Option Nat) (content : Option String)
      (embed : Option PyObj) (embeds : Option (List PyObj))
deriving DecidableEq

/-- One outgoing HTTP request, with the route parameters that key it. -/
inductive HttpCall where
  | callback (interactionId : Nat) (token : String) (ty : Nat) (data : Option MsgData)
  | patchOriginal (appId : Nat) (token : String) (body : MsgData)
  | deleteOriginal (appId : Nat) (token : String)
  | channelSend (channelId : Nat) (content : Option String) (embed : Option PyObj)
      (file : Option Nat) (files : Option (List Nat)) (tts : Bool)
      (delete_after : Option Nat) (allowed_mentions : Option AMVal)
  | webhookSend (webhookId : Nat) (webhookToken : String) (content : Option String)
      (tts : Option Bool) (file : Option Nat) (files : Option (List Nat))
      (embed : Option PyObj) (embeds : Option (List PyObj))
      (allowed_mentions : Option AMVal)
deriving DecidableEq

/-- Whether a request hits the interaction-callback endpoint
`POST /interactions/{interaction_id}/{token}/callback`. -/
def HttpCall.isCallback : HttpCall → Bool
  | .callback _ _ _ _ => true
  | _ => false

/-- The `discord.Webhook` constructed by the `webhook` property; only its
route keys (id and token) are relevant. -/
structure Webhook where
  id : Nat
  token : String
deriving DecidableEq

/-- The state of a `BaseInteraction` after `__init__`: identity fields read
from the payload plus the mutable lifecycle flags. `sent` is `_sent`,
`webhookCache` is `_webhook`. -/
structure Interaction where
  id : Nat
  application_id : Nat
  token : String
  channel : Option Nat
  sent : Bool
  editable : Bool
  webhookCache : Option Webhook
deriving DecidableEq

/-- The relevant state of the client: the bot user's id (`client.user.id`,
used to key the webhook routes) and the process-wide default
allowed-mentions policy (`state.allowed_mentions`). -/
structure Client where
  userId : Nat
  stateAllowedMentions : Option AMVal
deriving DecidableEq

/-- `discord.utils.snowflake_time`, in Unix milliseconds:
`DISCORD_EPOCH + (id >> 22)` with `DISCORD_EPOCH = 1420070400000`. -/
def snowflake_time (id : Nat) : Int :=
  1420070400000 + (id >>> 22 : Nat)

/-- The `created_at` property. -/
def Interaction.created_at (i : Interaction) : Int :=
  snowflake_time i.id

/-- The `expired` property, evaluated at wall-clock instant `now`
(milliseconds): with `_sent` the deadline is 15 minutes, otherwise
3 seconds, both strict. -/
def Interaction.expired (now : Int) (i : Interaction) : Bool :=
  if i.sent then
    decide (now - i.created_at > 15 * 60 * 1000)
  else
    decide (now - i.created_at > 3 * 1000)

/-- The `webhook` property: the cached value if present, else a
`discord.Webhook` built from `client.user.id` and the interaction token,
which is then cached. Returns the webhook together with the updated state. -/
def Interaction.webhookOf (c : Client) (i : Interaction) : Webhook × Interaction :=
  match i.webhookCache with
  | some w => (w, i)
  | none =>
    let w : Webhook := ⟨c.userId, i.token⟩
    (w, { i with webhookCache := some w })

/-- The exceptions the embedded operations can raise. The first six model
`discord.InvalidArgument` raises (the spec's `ValidationError`), the two
`nothingTo*` model the `TypeError` raises of `edit`/`delete` (the spec's
`StateError`), and `channelIsNone` models the `AttributeError` from
`None.send` when the fallback path finds no channel. -/
inductive Err where
  | bothEmbedAndEmbeds
  | embedWrongType
  | tooManyEmbeds
  | embedsWrongType
  | tooManyComponents
  | componentsWrongType
  | nothingToEdit
  | nothingToDelete
  | channelIsNone
deriving DecidableEq

def Err.isValidationError : Err → Bool
  | .bothEmbedAndEmbeds => true
  | .embedWrongType => true
  | .tooManyEmbeds => true
  | .embedsWrongType => true
  | .tooManyComponents => true
  | .componentsWrongType => true
  | _ => false

def Err.isStateError : Err → Bool
  | .nothingToEdit => true
  | .nothingToDelete => true
  | _ => false

/-- Outcome of one operation: the returned value or raised exception, the
interaction state afterwards, the ordered trace of HTTP requests issued, and
the delays of any fire-and-forget `delete_after` tasks scheduled. -/
structure Outcome (α : Type) where
  result : Except Err α
  state : Interaction
  calls : List HttpCall
  scheduled : List Nat

/-- The keyword arguments of `reply` with their source defaults. The field
`ty` is the source's `type` parameter. -/
structure ReplyArgs where
  content : Option String := none
  embed : Option PyObj := none
  embeds : Option (List PyObj) := none
  components : Option (List PyObj) := none
  file : Option Nat := none
  files : Option (List Nat) := none
  tts : Bool := false
  hide_user_input : Bool := false
  ephemeral : Bool := false
  delete_after : Option Nat := none
  allowed_mentions : Option AMVal := none
  ty : Option Nat := none
  fetch_response_message : Bool := true
deriving DecidableEq

/-- The keyword arguments of `edit`, all defaulting to `None`. -/
structure EditArgs where
  content : Option String := none
  embed : Option PyObj := none
  embeds : Option (List PyObj) := none
  components : Option (List PyObj) := none
  allowed_mentions : Option AMVal := none
deriving DecidableEq

/-- The keyword arguments of `followup`, all defaulting to `None`. -/
structure FollowupArgs where
  content : Option String := none
  embed : Option PyObj := none
  embeds : Option (List PyObj) := none
  file : Option Nat := none
  files : Option (List Nat) := none
  tts : Option Bool := none
  allowed_mentions : Option AMVal := none
deriving DecidableEq

/-- The embed/embeds block shared verbatim by `reply` and `edit`: rejects
`embed` and `embeds` together, checks `isinstance` on the single embed,
checks the 10-element cap and then `isinstance` on the list, and yields the
value of the `embeds` key of the data dict (`none` when the key is absent). -/
def buildEmbedsField (embed : Option PyObj) (embeds : Option (List PyObj)) :
    Except Err (Option (List Nat)) :=
  if embed.isSome ∧ embeds.isSome then
    .error .bothEmbedAndEmbeds
  else
    match embed with
    | some e =>
      if e.isEmbed = false then .error .embedWrongType
      else .ok (some [e.toDict])
    | none =>
      match embeds with
      | some l =>
        if l.length > 10 then .error .tooManyEmbeds
        else if (l.all PyObj.isEmbed) = false then .error .embedsWrongType
        else .ok (some (l.map PyObj.toDict))
      | none => .ok none

/-- The components block shared verbatim by `reply` and `edit`: the
5-element cap, then `isinstance` on each element, yielding the value of the
`components` key of the data dict. -/
def buildComponentsField (components : Option (List PyObj)) :
    Except Err (Option (List Nat)) :=
  match components with
  | none => .ok none
  | some l =>
    if l.length > 5 then .error .tooManyComponents
    else if (l.all PyObj.isActionRow) = false then .error .componentsWrongType
    else .ok (some (l.map PyObj.toDict))

/-- The response-type resolution at the top of `reply`: an explicit `type`
wins; otherwise the type is chosen from `hide_user_input` and emptiness,
where a message is empty exactly when `content is None and embed is None`. -/
def resolvedType (content : Option String) (embed : Option PyObj)
    (hide_user_input : Bool) (ty : Option Nat) : Nat :=
  match ty with
  | some t => t
  | none =>
    if content.isNone && embed.isNone then
      if hide_user_input then 1 else 5
    else
      if hide_user_input then 3 else 4

/-- The response type `reply` resolves for a full argument record. -/
def replyResolvedType (a : ReplyArgs) : Nat :=
  resolvedType a.content a.embed a.hide_user_input a.ty

/-- The `edit` method: the `editable` precondition, the payload build, and
the `PATCH /webhooks/{app_id}/{token}/messages/@original` request keyed by
`client.user.id` and the interaction token. The state is unchanged. -/
def edit (c : Client) (i : Interaction) (a : EditArgs) : Outcome Msg :=
  if i.editable = false then
    ⟨.error .nothingToEdit, i, [], []⟩
  else
    match buildEmbedsField a.embed a.embeds with
    | .error e => ⟨.error e, i, [], []⟩
    | .ok embedsField =>
      match buildComponentsField a.components with
      | .error e => ⟨.error e, i, [], []⟩
      | .ok componentsField =>
        let am : Option AMVal :=
          match a.allowed_mentions with
          | some m => some (mergeAllowedMentions c.stateAllowedMentions m)
          | none => none
        let body : MsgData :=
          { content := a.content, embeds := embedsField,
            components := componentsField, allowed_mentions := am }
        ⟨.ok (.fromEdit i.channel body), i,
         [.patchOriginal c.userId i.token body], []⟩

/-- The `delete` method: the `editable` precondition, the
`DELETE /webhooks/{app_id}/{token}/messages/@original` request keyed by
`client.user.id` and the interaction token, then `editable = False`. -/
def delete (c : Client) (i : Interaction) : Outcome Unit :=
  if i.editable = false then
    ⟨.error .nothingToDelete, i, [], []⟩
  else
    ⟨.ok (), { i with editable := false },
     [.deleteOriginal c.userId i.token], []⟩

/-- The callback branch of `reply`, reached when the fallback condition
fails: builds the data dict (content, embed/embeds, components,
allowed-mentions gated on non-emptiness, ephemeral flags, tts), issues the
callback POST, sets `_sent`, and runs the post-send branching on the
resolved type `ty`. -/
def replyCallback (c : Client) (i : Interaction) (a : ReplyArgs) (ty : Nat) :
    Outcome (Option Msg) :=
  match buildEmbedsField a.embed a.embeds with
  | .error e => ⟨.error e, i, [], []⟩
  | .ok embedsField =>
    match buildComponentsField a.components with
    | .error e => ⟨.error e, i, [], []⟩
    | .ok componentsField =>
      let is_empty_message := a.content.isNone && a.embed.isNone
      let am : Option AMVal :=
        if is_empty_message = false then
          match a.allowed_mentions with
          | some m => some (mergeAllowedMentions c.stateAllowedMentions m)
          | none => none
        else none
      let data : MsgData :=
        { content := a.content, embeds := embedsField,
          components := componentsField, allowed_mentions := am,
          flags := if a.ephemeral then some 64 else none,
          tts := if a.tts then some true else none }
      let theCall : HttpCall :=
        .callback i.id i.token ty (if data.isEmptyDict then none else some data)
      let i1 : Interaction := { i with sent := true }
      if ty = 5 then
        ⟨.ok none, { i1 with editable := true }, [theCall], []⟩
      else if a.ephemeral = true ∨ ty = 1 ∨ ty = 2 then
        ⟨.ok none, i1, [theCall], []⟩
      else
        let i2 : Interaction := { i1 with editable := true }
        let scheduled : List Nat :=
          match a.delete_after with
          | some d => [d]
          | none => []
        if a.fetch_response_message then
          let o := edit c i2 {}
          ⟨o.result.map (fun m => some m), o.state,
           theCall :: o.calls, scheduled ++ o.scheduled⟩
        else
          ⟨.ok none, i2, [theCall], scheduled⟩

/-- The `reply` method at wall-clock instant `now`: resolves the response
type, and if `_sent or expired or type == 3` falls back to
`TextChannel.send` on the interaction's channel (raising on a `None`
channel, mutating nothing); otherwise runs the callback branch. -/
def reply (now : Int) (c : Client) (i : Interaction) (a : ReplyArgs) :
    Outcome (Option Msg) :=
  let ty := replyResolvedType a
  if i.sent = true ∨ i.expired now = true ∨ ty = 3 then
    match i.channel with
    | none => ⟨.error .channelIsNone, i, [], []⟩
    | some ch =>
      ⟨.ok (some (.fromChannelSend ch a.content a.embed)), i,
       [.channelSend ch a.content a.embed a.file a.files a.tts
          a.delete_after a.allowed_mentions], []⟩
  else
    replyCallback c i a ty

/-- The `followup` method: sends through the (lazily built, cached) webhook
and wraps the response in a message; no flag is read or written. -/
def followup (c : Client) (i : Interaction) (a : FollowupArgs) : Outcome Msg :=
  let wi := Interaction.webhookOf c i
  ⟨.ok (.fromWebhook i.channel a.content a.embed a.embeds), wi.2,
   [.webhookSend wi.1.id wi.1.token a.content a.tts a.file a.files
      a.embed a.embeds a.allowed_mentions], []⟩

/-- The class-level alias `send = reply`. -/
def send : Int → Client → Interaction → ReplyArgs → Outcome (Option Msg) :=
  reply

/-- The class-level alias `respond = reply`. -/
def respond : Int → Client → Interaction → ReplyArgs → Outcome (Option Msg) :=
  reply

/-- `true` when no request in the trace hits the interaction-callback
endpoint. -/
def noCallback (l : List HttpCall) : Bool :=
  l.all (fun x => !x.isCallback)

/-! ## Concrete states used by witnesses and counterexamples -/

/-- A client whose bot user id is distinct from the interaction's
application id below. -/
def cW : Client := ⟨100, none⟩

/-- A freshly dispatched interaction: id 0 (created exactly at the Discord
epoch), application id 1, token `"t"`, channel 7, not sent, not editable. -/
def iFresh : Interaction := ⟨0, 1, "t", some 7, false, false, none⟩

/-- The same interaction after its original response became editable. -/
def iEd : Interaction := ⟨0, 1, "t", some 7, true, true, none⟩

/-- The same interaction already responded to, not editable. -/
def iSent : Interaction := ⟨0, 1, "t", some 7, true, false, none⟩

/-- The creation instant of interaction id 0 in Unix milliseconds. -/
def now0 : Int := 1420070400000

/-! ## Helper lemmas -/

theorem list_all_replicate {α : Type} (n : Nat) (x : α) (p : α → Bool)
    (h : p x = true) : (List.replicate n x).all p = true := by
  simp only [List.all_eq_true]
  intro y hy
  rw [List.eq_of_mem_replicate hy]
  exact h

/-! ## Claims -/

/-- C5: `expired` is a pure function of the current wall-clock time, the
creation timestamp embedded in the snowflake id, and the sent flag: with
`sent = false` it holds exactly when the age exceeds 3 seconds, with
`sent = true` exactly when the age exceeds 15 minutes. -/
theorem c5_expired_pure_of_now_id_sent (now : Int) (i : Interaction) :
    i.expired now =
      decide (now - snowflake_time i.id >
        if i.sent then 15 * 60 * 1000 else 3 * 1000) := by
  unfold Interaction.expired Interaction.created_at
  by_cases h : i.sent <;> simp [h]

/-- C4: with no explicit type supplied, the resolved response type follows
the four-row table on (emptiness, hideUserInput), where emptiness inspects
only `content` and the singular `embed` (the quantified `a` carries an
arbitrary plural `embeds` list, which does not appear on the right-hand
side). -/
theorem c4_resolver_table (a : ReplyArgs) (h : a.ty = none) :
    replyResolvedType a =
      if a.content = none ∧ a.embed = none then
        if a.hide_user_input then ResponseType.Acknowledge
        else ResponseType.AcknowledgeWithSource
      else
        if a.hide_user_input then ResponseType.ChannelMessage
        else ResponseType.ChannelMessageWithSource := by
  unfold replyResolvedType resolvedType ResponseType.Acknowledge
    ResponseType.AcknowledgeWithSource ResponseType.ChannelMessage
    ResponseType.ChannelMessageWithSource
  rw [h]
  rcases ha : a.content with _ | v <;> rcases hb : a.embed with _ | w <;>
    cases hh : a.hide_user_input <;> simp [ha, hb]

/-- C4 witness: the table evaluated on a concrete non-empty message with
`hide_user_input` set resolves to the deprecated channel-message type 3. -/
theorem c4_resolver_table_witness :
    ({ content := some "x", hide_user_input := true } : ReplyArgs).ty = none
    ∧ replyResolvedType { content := some "x", hide_user_input := true } =
        if ({ content := some "x", hide_user_input := true } : ReplyArgs).content = none
            ∧ ({ content := some "x", hide_user_input := true } : ReplyArgs).embed = none then
          if ({ content := some "x", hide_user_input := true } : ReplyArgs).hide_user_input then
            ResponseType.Acknowledge
          else ResponseType.AcknowledgeWithSource
        else
          if ({ content := some "x", hide_user_input := true } : ReplyArgs).hide_user_input then
            ResponseType.ChannelMessage
          else ResponseType.ChannelMessageWithSource :=
  ⟨rfl, c4_resolver_table { content := some "x", hide_user_input := true } rfl⟩

/-- C10: the public operations `send` and `respond` are exact aliases of
`reply`: on every clock instant, client, interaction state and argument
record they produce the identical outcome (result, state, HTTP trace and
scheduled tasks). -/
theorem c10_send_respond_alias_reply (now : Int) (c : Client)
    (i : Interaction) (a : ReplyArgs) :
    send now c i a = reply now c i a ∧ respond now c i a = reply now c i a :=
  ⟨rfl, rfl⟩

/-- C8: `followup` has no precondition on `sent`, `editable` or expiry: on
every interaction state it sends exactly one request through the
lazily-built, cached webhook (the cached value when present, else one built
on the spot and cached), returns the created message, takes no clock
parameter, and leaves `sent` and `editable` unchanged. -/
theorem c8_followup_unconditional (c : Client) (i : Interaction)
    (a : FollowupArgs) :
    (followup c i a).result =
        .ok (.fromWebhook i.channel a.content a.embed a.embeds)
    ∧ (followup c i a).calls =
        [.webhookSend (Interaction.webhookOf c i).1.id
          (Interaction.webhookOf c i).1.token a.content a.tts a.file a.files
          a.embed a.embeds a.allowed_mentions]
    ∧ (Interaction.webhookOf c i).1 = i.webhookCache.getD ⟨c.userId, i.token⟩
    ∧ (followup c i a).state.sent = i.sent
    ∧ (followup c i a).state.editable = i.editable
    ∧ (followup c i a).state.webhookCache = some (Interaction.webhookOf c i).1
    ∧ (followup c i a).scheduled = [] := by
  rcases h : i.webhookCache with _ | w <;>
    simp [followup, Interaction.webhookOf, h]

/-- C1: whenever `sent` is already true, or the interaction is expired, or
the resolved/explicit type is 3, `reply` issues no callback request, instead
performs the plain channel send and returns its message (raising the
channel-is-missing indicator when the channel is `None`), and leaves the
whole interaction state - in particular `sent` and `editable` - unchanged. -/
theorem c1_reply_fallback (now : Int) (c : Client) (i : Interaction)
    (a : ReplyArgs)
    (h : i.sent = true ∨ i.expired now = true ∨ replyResolvedType a = 3) :
    noCallback (reply now c i a).calls = true
    ∧ (reply now c i a).state = i
    ∧ (match i.channel with
       | some ch =>
         (reply now c i a).result =
             .ok (some (.fromChannelSend ch a.content a.embed))
         ∧ (reply now c i a).calls =
             [.channelSend ch a.content a.embed a.file a.files a.tts
               a.delete_after a.allowed_mentions]
       | none =>
         (reply now c i a).result = .error .channelIsNone
         ∧ (reply now c i a).calls = []) := by
  unfold reply
  rw [if_pos h]
  rcases hch : i.channel with _ | ch <;>
    simp [noCallback, HttpCall.isCallback]

/-- C1 witness: an already-sent interaction with an available channel; the
hypothesis holds by its first disjunct and the fallback conclusion evaluates
on the concrete state. -/
theorem c1_reply_fallback_witness :
    (iSent.sent = true ∨ iSent.expired now0 = true
      ∨ replyResolvedType {} = 3)
    ∧ (noCallback (reply now0 cW iSent {}).calls = true
      ∧ (reply now0 cW iSent {}).state = iSent
      ∧ ((reply now0 cW iSent {}).result =
            .ok (some (.fromChannelSend 7 none none))
        ∧ (reply now0 cW iSent {}).calls =
            [.channelSend 7 none none none none false none none])) :=
  ⟨Or.inl rfl, c1_reply_fallback now0 cW iSent {} (Or.inl rfl)⟩

/-- C6 counterexample: a fresh, unexpired interaction given an explicit
type 3 together with both `embed` and `embeds` is routed to the fallback
before validation runs: no `ValidationError` is raised and an HTTP request
(the plain channel send) is issued, refuting the claim for this call. -/
theorem c6_counterexample :
    (reply now0 cW iFresh
        { embed := some (.embed 0), embeds := some [.embed 1],
          ty := some 3 }).result =
      .ok (some (.fromChannelSend 7 none (some (.embed 0))))
    ∧ (reply now0 cW iFresh
        { embed := some (.embed 0), embeds := some [.embed 1],
          ty := some 3 }).calls =
      [.channelSend 7 none (some (.embed 0)) none none false none none] := by
  decide

/-- C6 amended: on every reply call routed to the callback endpoint (not
sent, not expired, resolved type not 3), supplying both `embed` and `embeds`
raises the both-embed-and-embeds `ValidationError`, issues no HTTP request
at all, and leaves the state unchanged. -/
theorem c6_amended_both_embeds_rejected (now : Int) (c : Client)
    (i : Interaction) (a : ReplyArgs)
    (hs : i.sent = false) (he : i.expired now = false)
    (ht : replyResolvedType a ≠ 3)
    (h1 : a.embed.isSome = true) (h2 : a.embeds.isSome = true) :
    (reply now c i a).result = .error .bothEmbedAndEmbeds
    ∧ (reply now c i a).calls = []
    ∧ (reply now c i a).state = i := by
  unfold reply
  rw [if_neg]
  · unfold replyCallback buildEmbedsField
    rw [if_pos ⟨h1, h2⟩]
    exact ⟨rfl, rfl, rfl⟩
  · simp [hs, he, ht]

/-- C6 amended witness: a fresh interaction, explicit type 4, both embed
arguments supplied. -/
theorem c6_amended_both_embeds_rejected_witness :
    (iFresh.sent = false ∧ iFresh.expired now0 = false
      ∧ replyResolvedType
          { embed := some (.embed 0), embeds := some [.embed 1],
            ty := some 4 } ≠ 3
      ∧ ({ embed := some (.embed 0), embeds := some [.embed 1],
            ty := some 4 } : ReplyArgs).embed.isSome = true
      ∧ ({ embed := some (.embed 0), embeds := some [.embed 1],
            ty := some 4 } : ReplyArgs).embeds.isSome = true)
    ∧ ((reply now0 cW iFresh
          { embed := some (.embed 0), embeds := some [.embed 1],
            ty := some 4 }).result = .error .bothEmbedAndEmbeds
      ∧ (reply now0 cW iFresh
          { embed := some (.embed 0), embeds := some [.embed 1],
            ty := some 4 }).calls = []
      ∧ (reply now0 cW iFresh
          { embed := some (.embed 0), embeds := some [.embed 1],
            ty := some 4 }).state = iFresh) :=
  ⟨by decide,
    c6_amended_both_embeds_rejected now0 cW iFresh
      { embed := some (.embed 0), embeds := some [.embed 1], ty := some 4 }
      rfl (by decide) (by decide) rfl rfl⟩

/-- C2 counterexample: a successful non-fallback ephemeral reply with the
explicit acknowledge-with-source type 5 leaves `editable = true` (the
type-5 branch runs before the ephemeral branch), and a subsequent `edit`
succeeds instead of raising a `StateError`, refuting the claim at type 5. -/
theorem c2_counterexample :
    (reply now0 cW iFresh { ephemeral := true, ty := some 5 }).result =
        .ok none
    ∧ (reply now0 cW iFresh
        { ephemeral := true, ty := some 5 }).state.editable = true
    ∧ (edit cW
        (reply now0 cW iFresh { ephemeral := true, ty := some 5 }).state
        {}).result = .ok (.fromEdit (some 7) {}) := by
  decide

/-- C2 amended: after a successful non-fallback ephemeral reply whose
resolved/explicit type is not 5, `editable` is false and a subsequent `edit`
raises the `StateError` without issuing a request; at type 5 the source sets
`editable` first, so the claim holds only away from type 5. -/
theorem c2_amended_ephemeral_not_editable (now : Int) (c : Client)
    (i : Interaction) (a : ReplyArgs) (e : EditArgs) (m : Option Msg)
    (hs : i.sent = false) (hed : i.editable = false)
    (he : i.expired now = false) (heph : a.ephemeral = true)
    (ht3 : replyResolvedType a ≠ 3) (ht5 : replyResolvedType a ≠ 5)
    (_hok : (reply now c i a).result = .ok m) :
    (reply now c i a).state.editable = false
    ∧ (edit c (reply now c i a).state e).result = .error .nothingToEdit
    ∧ (edit c (reply now c i a).state e).calls = [] := by
  unfold reply
  rw [if_neg]
  · unfold replyCallback
    rcases hbe : buildEmbedsField a.embed a.embeds with err | ef
    · simp only [hbe]
      refine ⟨hed, ?_, ?_⟩ <;> simp [edit, hed]
    · rcases hbc : buildComponentsField a.components with err | cf
      · simp only [hbe, hbc]
        refine ⟨hed, ?_, ?_⟩ <;> simp [edit, hed]
      · simp only [hbe, hbc]
        rw [if_neg ht5, if_pos (Or.inl heph)]
        refine ⟨hed, ?_, ?_⟩ <;> simp [edit, hed]
  · simp [hs, he, ht3]

/-- C2 amended witness: ephemeral reply with explicit type 4 on a fresh
interaction leaves `editable = false` and `edit` raises the state error. -/
theorem c2_amended_ephemeral_not_editable_witness :
    (iFresh.sent = false ∧ iFresh.editable = false
      ∧ iFresh.expired now0 = false
      ∧ ({ ephemeral := true, ty := some 4 } : ReplyArgs).ephemeral = true
      ∧ replyResolvedType { ephemeral := true, ty := some 4 } ≠ 3
      ∧ replyResolvedType { ephemeral := true, ty := some 4 } ≠ 5
      ∧ (reply now0 cW iFresh
          { ephemeral := true, ty := some 4 }).result = .ok none)
    ∧ ((reply now0 cW iFresh
          { ephemeral := true, ty := some 4 }).state.editable = false
      ∧ (edit cW
          (reply now0 cW iFresh { ephemeral := true, ty := some 4 }).state
          {}).result = .error .nothingToEdit
      ∧ (edit cW
          (reply now0 cW iFresh { ephemeral := true, ty := some 4 }).state
          {}).calls = []) :=
  ⟨by decide,
    c2_amended_ephemeral_not_editable now0 cW iFresh
      { ephemeral := true, ty := some 4 } {} none
      rfl rfl (by decide) rfl (by decide) (by decide) (by decide)⟩

/-- C3: `edit` and `delete` require `editable = true` and otherwise raise
the `StateError` with no HTTP request; a successful `delete` clears
`editable`; and after a successful non-ephemeral, non-ack-only, non-fallback
`reply`, `editable` is true, an `edit` succeeds, a `delete` succeeds
(clearing `editable`), and a second `delete` raises the `StateError`. -/
theorem c3_edit_delete_lifecycle (now : Int) (c : Client)
    (ifalse itrue i : Interaction) (a : ReplyArgs) (e : EditArgs)
    (m : Option Msg)
    (h1 : ifalse.editable = false) (h2 : itrue.editable = true)
    (hs : i.sent = false) (he : i.expired now = false)
    (heph : a.ephemeral = false)
    (ht1 : replyResolvedType a ≠ 1) (ht2 : replyResolvedType a ≠ 2)
    (ht3 : replyResolvedType a ≠ 3)
    (hok : (reply now c i a).result = .ok m) :
    ((edit c ifalse e).result = .error .nothingToEdit
      ∧ (edit c ifalse e).calls = [])
    ∧ ((delete c ifalse).result = .error .nothingToDelete
      ∧ (delete c ifalse).calls = [])
    ∧ ((delete c itrue).result = .ok ()
      ∧ (delete c itrue).state.editable = false)
    ∧ (reply now c i a).state.editable = true
    ∧ (edit c (reply now c i a).state {}).result = .ok (.fromEdit i.channel {})
    ∧ (delete c (edit c (reply now c i a).state {}).state).result = .ok ()
    ∧ (delete c (delete c (edit c (reply now c i a).state {}).state).state).result
        = .error .nothingToDelete := by
  have hA : (edit c ifalse e).result = .error .nothingToEdit
      ∧ (edit c ifalse e).calls = [] := by
    simp [edit, h1]
  have hB : (delete c ifalse).result = .error .nothingToDelete
      ∧ (delete c ifalse).calls = [] := by
    simp [delete, h1]
  have hC : (delete c itrue).result = .ok ()
      ∧ (delete c itrue).state.editable = false := by
    simp [delete, h2]
  have hstate : (reply now c i a).state.editable = true
      ∧ (reply now c i a).state.channel = i.channel := by
    unfold reply at hok ⊢
    rw [if_neg (by simp [hs, he, ht3])] at hok ⊢
    unfold replyCallback at hok ⊢
    rcases hbe : buildEmbedsField a.embed a.embeds with err | ef
    · simp [hbe] at hok
    · rcases hbc : buildComponentsField a.components with err2 | cf
      · simp [hbe, hbc] at hok
      · dsimp only
        by_cases ht5 : replyResolvedType a = 5
        · rw [if_pos ht5]
          exact ⟨rfl, rfl⟩
        · rw [if_neg ht5, if_neg (by simp [heph, ht1, ht2])]
          by_cases hf : a.fetch_response_message = true
          · rw [if_pos hf]
            exact ⟨rfl, rfl⟩
          · rw [if_neg hf]
            exact ⟨rfl, rfl⟩
  refine ⟨hA, hB, hC, hstate.1, ?_, ?_, ?_⟩
  · simp [edit, hstate.1, buildEmbedsField, buildComponentsField, hstate.2]
  · simp [delete, edit, hstate.1, buildEmbedsField, buildComponentsField]
  · simp [delete, edit, hstate.1, buildEmbedsField, buildComponentsField]

/-- C3 witness: a fresh interaction replied to with plain content (resolved
type 4); the non-editable state is `iFresh`, the editable one `iEd`. -/
theorem c3_edit_delete_lifecycle_witness :
    (iFresh.editable = false ∧ iEd.editable = true
      ∧ iFresh.sent = false ∧ iFresh.expired now0 = false
      ∧ ({ content := some "hi" } : ReplyArgs).ephemeral = false
      ∧ replyResolvedType { content := some "hi" } ≠ 1
      ∧ replyResolvedType { content := some "hi" } ≠ 2
      ∧ replyResolvedType { content := some "hi" } ≠ 3
      ∧ (reply now0 cW iFresh { content := some "hi" }).result =
          .ok (some (.fromEdit (some 7) {})))
    ∧ (((edit cW iFresh {}).result = .error .nothingToEdit
        ∧ (edit cW iFresh {}).calls = [])
      ∧ ((delete cW iFresh).result = .error .nothingToDelete
        ∧ (delete cW iFresh).calls = [])
      ∧ ((delete cW iEd).result = .ok ()
        ∧ (delete cW iEd).state.editable = false)
      ∧ (reply now0 cW iFresh { content := some "hi" }).state.editable = true
      ∧ (edit cW (reply now0 cW iFresh { content := some "hi" }).state
          {}).result = .ok (.fromEdit (some 7) {})
      ∧ (delete cW
          (edit cW (reply now0 cW iFresh { content := some "hi" }).state
            {}).state).result = .ok ()
      ∧ (delete cW
          (delete cW
            (edit cW (reply now0 cW iFresh { content := some "hi" }).state
              {}).state).state).result = .error .nothingToDelete) :=
  ⟨by decide,
    c3_edit_delete_lifecycle now0 cW iFresh iEd iFresh
      { content := some "hi" } {} (some (.fromEdit (some 7) {}))
      rfl rfl rfl (by decide) rfl (by decide) (by decide) (by decide)
      (by decide)⟩

/-- C7: the embed and action-row count limits are exact at the boundary on
the callback path: at the validator, any 11-element embeds list and any
6-element components list are rejected; through `reply`, 11 embeds raise
the `ValidationError` with no request while 10 valid embeds are accepted,
and 6 action rows raise while 5 valid rows are accepted. -/
theorem c7_payload_boundaries (now : Int) (c : Client) (i : Interaction)
    (l : List PyObj) (r : List PyObj)
    (hs : i.sent = false) (he : i.expired now = false)
    (hl : l.length = 11) (hr : r.length = 6) :
    buildEmbedsField none (some l) = .error .tooManyEmbeds
    ∧ buildComponentsField (some r) = .error .tooManyComponents
    ∧ ((reply now c i
          { embeds := some (List.replicate 11 (PyObj.embed 0)), ty := some 4,
            fetch_response_message := false }).result = .error .tooManyEmbeds
      ∧ (reply now c i
          { embeds := some (List.replicate 11 (PyObj.embed 0)), ty := some 4,
            fetch_response_message := false }).calls = [])
    ∧ (reply now c i
        { embeds := some (List.replicate 10 (PyObj.embed 0)), ty := some 4,
          fetch_response_message := false }).result = .ok none
    ∧ ((reply now c i
          { content := some "x",
            components := some (List.replicate 6 (PyObj.actionRow 0)),
            ty := some 4, fetch_response_message := false }).result =
            .error .tooManyComponents
      ∧ (reply now c i
          { content := some "x",
            components := some (List.replicate 6 (PyObj.actionRow 0)),
            ty := some 4, fetch_response_message := false }).calls = [])
    ∧ (reply now c i
        { content := some "x",
          components := some (List.replicate 5 (PyObj.actionRow 0)),
          ty := some 4, fetch_response_message := false }).result =
          .ok none := by
  have hfall : ¬(i.sent = true ∨ i.expired now = true ∨ (4 : Nat) = 3) := by
    simp [hs, he]
  refine ⟨?_, ?_, ?_, ?_, ?_, ?_⟩
  · simp [buildEmbedsField, hl]
  · simp [buildComponentsField, hr]
  · constructor <;>
      simp [reply, replyResolvedType, resolvedType, hs, he, replyCallback,
        buildEmbedsField, buildComponentsField]
  · simp [reply, replyResolvedType, resolvedType, hs, he, replyCallback,
      buildEmbedsField, buildComponentsField, PyObj.isEmbed, PyObj.toDict,
      MsgData.isEmptyDict,
      list_all_replicate 10 (PyObj.embed 0) PyObj.isEmbed rfl]
  · constructor <;>
      simp [reply, replyResolvedType, resolvedType, hs, he, replyCallback,
        buildEmbedsField, buildComponentsField]
  · simp [reply, replyResolvedType, resolvedType, hs, he, replyCallback,
      buildEmbedsField, buildComponentsField, PyObj.isActionRow, PyObj.toDict,
      MsgData.isEmptyDict,
      list_all_replicate 5 (PyObj.actionRow 0) PyObj.isActionRow rfl]

/-- C7 witness: the boundary behavior evaluated on the fresh interaction. -/
theorem c7_payload_boundaries_witness :
    (iFresh.sent = false ∧ iFresh.expired now0 = false
      ∧ (List.replicate 11 (PyObj.embed 0)).length = 11
      ∧ (List.replicate 6 (PyObj.actionRow 0)).length = 6)
    ∧ (buildEmbedsField none (some (List.replicate 11 (PyObj.embed 0))) =
        .error .tooManyEmbeds
      ∧ buildComponentsField (some (List.replicate 6 (PyObj.actionRow 0))) =
        .error .tooManyComponents
      ∧ ((reply now0 cW iFresh
            { embeds := some (List.replicate 11 (PyObj.embed 0)),
              ty := some 4, fetch_response_message := false }).result =
            .error .tooManyEmbeds
        ∧ (reply now0 cW iFresh
            { embeds := some (List.replicate 11 (PyObj.embed 0)),
              ty := some 4, fetch_response_message := false }).calls = [])
      ∧ (reply now0 cW iFresh
          { embeds := some (List.replicate 10 (PyObj.embed 0)),
            ty := some 4, fetch_response_message := false }).result = .ok none
      ∧ ((reply now0 cW iFresh
            { content := some "x",
              components := some (List.replicate 6 (PyObj.actionRow 0)),
              ty := some 4, fetch_response_message := false }).result =
              .error .tooManyComponents
        ∧ (reply now0 cW iFresh
            { content := some "x",
              components := some (List.replicate 6 (PyObj.actionRow 0)),
              ty := some 4, fetch_response_message := false }).calls = [])
      ∧ (reply now0 cW iFresh
          { content := some "x",
            components := some (List.replicate 5 (PyObj.actionRow 0)),
            ty := some 4, fetch_response_message := false }).result =
            .ok none) :=
  ⟨by decide,
    c7_payload_boundaries now0 cW iFresh
      (List.replicate 11 (PyObj.embed 0))
      (List.replicate 6 (PyObj.actionRow 0))
      rfl (by decide) (by decide) (by decide)⟩

/-- C9 counterexample: with a client whose bot user id (100) differs from
the interaction's stored application id (1), the constructed webhook and the
`edit`/`delete` routes are all keyed by the bot user id, not by
`application_id`, refuting the claim at this input. -/
theorem c9_counterexample :
    (Interaction.webhookOf cW iFresh).1.id = 100
    ∧ iFresh.application_id = 1
    ∧ (Interaction.webhookOf cW iFresh).1.id ≠ iFresh.application_id
    ∧ (edit cW iEd {}).calls = [.patchOriginal 100 "t" {}]
    ∧ (delete cW iEd).calls = [.deleteOriginal 100 "t"]
    ∧ (100 : Nat) ≠ iFresh.application_id := by
  decide

/-- C9 amended: the webhook follow-up channel is constructed from the
client's bot user id and the interaction token (which coincide with the
application id only when the bot user id equals it), and `edit`/`delete`
address the original message via routes keyed by that same pair. -/
theorem c9_amended_routes_keyed_by_bot_user_id (c : Client) (i : Interaction)
    (a : FollowupArgs) (hcache : i.webhookCache = none)
    (hed : i.editable = true) :
    (Interaction.webhookOf c i).1 = ⟨c.userId, i.token⟩
    ∧ (followup c i a).calls =
        [.webhookSend c.userId i.token a.content a.tts a.file a.files
          a.embed a.embeds a.allowed_mentions]
    ∧ (edit c i {}).calls = [.patchOriginal c.userId i.token {}]
    ∧ (delete c i).calls = [.deleteOriginal c.userId i.token] := by
  refine ⟨?_, ?_, ?_, ?_⟩
  · simp [Interaction.webhookOf, hcache]
  · simp [followup, Interaction.webhookOf, hcache]
  · simp [edit, hed, buildEmbedsField, buildComponentsField]
  · simp [delete, hed]

/-- C9 amended witness: the fresh interaction with an empty webhook cache
and the editable state. -/
theorem c9_amended_routes_keyed_by_bot_user_id_witness :
    (iEd.webhookCache = none ∧ iEd.editable = true)
    ∧ ((Interaction.webhookOf cW iEd).1 = ⟨100, "t"⟩
      ∧ (followup cW iEd {}).calls =
          [.webhookSend 100 "t" none none none none none none none]
      ∧ (edit cW iEd {}).calls = [.patchOriginal 100 "t" {}]
      ∧ (delete cW iEd).calls = [.deleteOriginal 100 "t"]) :=
  ⟨⟨rfl, rfl⟩, c9_amended_routes_keyed_by_bot_user_id cW iEd {} rfl rfl⟩

end Dislash
